import Mathlib

/-!
Shallow embedding of the `ldss95/helpers` library core (src/src/index.ts):
the checksum validator `duiIsValid` and the string formatter object `format`,
plus the legacy slicing formatters of the earlier revision of the same file.
Strings are embedded as `List Char`.
-/

/-- Embeds `separateAndSum` (src/src/index.ts:33-39): sums the two decimal
digits of a two-digit number (`16 = 1 + 6 = 7`).  The source extracts the
first and second character of `number.toString()`; on the call domain
(numbers 10..18) that is exactly `n / 10 + n % 10`. -/
def separateAndSum (n : Nat) : Nat := n / 10 + n % 10

/-- Numeric value of a decimal digit character, as JS `Number(digit)` on a
one-character digit string. -/
def charToNum (c : Char) : Nat := c.toNat - '0'.toNat

/-- Embeds the body of the `digits.map` callback (src/src/index.ts:46-55):
`multiplier = (index % 2) ? 2 : 1`, `result = digit * multiplier`, reduced by
`separateAndSum` when greater than 9. -/
def weighDigit (index digit : Nat) : Nat :=
  let multiplier : Nat := if index % 2 ≠ 0 then 2 else 1
  let result := digit * multiplier
  if result > 9 then separateAndSum result else result

/-- Embeds the `sum` computation (src/src/index.ts:45-55): map each working
digit with its index through `weighDigit`, then `reduce((total, n) => total + n, 0)`. -/
def duiSum (working : List Char) : Nat :=
  ((working.enum.map (fun p => weighDigit p.1 (charToNum p.2))).foldl (· + ·) 0)

/-- Embeds `topTen` and `validator` (src/src/index.ts:57-58):
`topTen = (Math.floor(sum / 10) + 1) * 10`, `validator = topTen - sum`. -/
def duiValidator (working : List Char) : Nat :=
  let sum := duiSum working
  let topTen := (sum / 10 + 1) * 10
  topTen - sum

/-- Embeds `duiIsValid` (src/src/index.ts:18-65).  The `!dui` short-circuit of
line 23 is subsumed by the length test (an empty list has length 0 ≠ 11).
`dui.replace(/[0-9]/g, '') != ''` keeps exactly the non-digit characters, hence
the filter.  `digits.pop()` removes and returns the last element, leaving the
first ten digits as working digits. -/
def duiIsValid (dui : List Char) : Bool :=
  if dui.length ≠ 11 then false
  else if dui.filter (fun c => !c.isDigit) ≠ [] then false
  else
    let lastDigit := charToNum (dui.getLastD '0')
    let validator := duiValidator dui.dropLast
    lastDigit == validator || (lastDigit == 0 && validator == 10)

/-- The sentinel failure string returned by `format.custom` on a length
mismatch (src/src/index.ts:140). -/
def sentinel : List Char := "Entrada Invalida".toList

/-- Embeds JS `Array.prototype.splice(index, 0, char)`: inserts `c` at
position `index`, clamped to the array length (JS appends when the index
exceeds the length, which `take`/`drop` reproduce). -/
def splice (arr : List Char) (index : Nat) (c : Char) : List Char :=
  arr.take index ++ c :: arr.drop index

/-- Membership in the character class `[0-0A-Za-z]` of the length-check regex
`/[^0-0A-Za-z]/g` (src/src/index.ts:139).  Note the source writes `0-0`, not
`0-9`: the class holds only `'0'` and the ASCII letters. -/
def inLengthCheckClass (c : Char) : Bool := c == '0' || c.isAlpha

namespace format

/-- Embeds `format.custom` (src/src/index.ts:134-155); `ex` stands for the
source parameter `example`, a Lean keyword. The length check compares
`input.length` with the example's length after removing every character
outside `[0-0A-Za-z]`; then each template character matching
`isSpecial = /[^0-9A-Za-z]/` is spliced into the input array at its template
index. -/
def custom (input ex : List Char) : List Char :=
  if input.length ≠ (ex.filter inLengthCheckClass).length then
    sentinel
  else
    ex.enum.foldl
      (fun arr p => if !p.2.isAlphanum then splice arr p.1 p.2 else arr) input

/-- Embeds `format.rnc` (src/src/index.ts:80-82). -/
def rnc (rnc : List Char) : List Char := custom rnc ("000-00000-0".toList)

/-- Embeds `format.dui` (src/src/index.ts:93-95). -/
def dui (dui : List Char) : List Char := custom dui ("000-0000000-0".toList)

/-- Embeds `format.phone` (src/src/index.ts:106-108). -/
def phone (phone : List Char) : List Char := custom phone ("(000) 000-0000".toList)

/-- Groups a reversed digit sequence in threes, inserting `','` after every
third digit (helper for the spec model of `format.cash`). -/
def commaEvery3Rev : List Char → List Char
  | a :: b :: c :: d :: rest => a :: b :: c :: ',' :: commaEvery3Rev (d :: rest)
  | l => l

/-- Modelled from the spec: `format.cash` (src/src/index.ts:122-124) delegates
to the host-platform facility `Intl.NumberFormat('es-DO',
{ minimumFractionDigits: decimals })`, which is not code of this repository;
the spec describes it as grouping thousands with commas, using a period as
decimal separator, and emitting exactly `decimals` fraction digits (zeros for
an integer amount). -/
def cash (amount decimals : Nat) : List Char :=
  (commaEvery3Rev (Nat.toDigits 10 amount).reverse).reverse ++
    (if decimals = 0 then [] else '.' :: List.replicate decimals '0')

/-- `format.cash` with the `decimals` parameter omitted: the TS signature
defaults it to 0 (src/src/index.ts:122). -/
def cashDefault (amount : Nat) : List Char := cash amount 0

end format

/-- The `'N/A'` fallback of the legacy formatters (src/unnamed/part_000). -/
def nA : List Char := "N/A".toList

/-- Embeds JS `String.prototype.substr(start, len)` for nonnegative `start`. -/
def substr (s : List Char) (start len : Nat) : List Char := (s.drop start).take len

namespace legacy

/-- Embeds the legacy `format.rnc` (src/unnamed/part_000:80-82):
`` `${rnc.substr(0, 3)}-${rnc.substr(3, 5)}-${rnc.substr(8, 1)}` `` when the
argument is truthy (a nonempty string), else `'N/A'`. -/
def rnc (rnc : List Char) : List Char :=
  if rnc = [] then nA
  else substr rnc 0 3 ++ '-' :: (substr rnc 3 5 ++ '-' :: substr rnc 8 1)

/-- Embeds the legacy `format.dui` (src/unnamed/part_000:93-95). -/
def dui (dui : List Char) : List Char :=
  if dui = [] then nA
  else substr dui 0 3 ++ '-' :: (substr dui 3 7 ++ '-' :: substr dui 10 1)

/-- Embeds the legacy `format.phone` (src/unnamed/part_000:106-108):
`` `(${phone.substr(0, 3)}) ${phone.substr(3, 3)}-${phone.substr(6, 4)}` ``. -/
def phone (phone : List Char) : List Char :=
  if phone = [] then nA
  else '(' :: (substr phone 0 3 ++ ')' :: ' ' ::
    (substr phone 3 3 ++ '-' :: substr phone 6 4))

end legacy

/-!
Spec-side definitions. These restate, from the specification's wording, the
checksum acceptance condition of §4.1 / claim C1, to be compared with the
embedded `duiIsValid`.
-/

/-- Spec-side reduction: "each product greater than 9 replaced by the sum of
its two decimal digits". -/
def specReduceProduct (p : Nat) : Nat := if p > 9 then p / 10 + p % 10 else p

/-- Spec-side multiplier: "m = 2 when i is odd, 1 when i is even". -/
def specMultiplier (i : Nat) : Nat := if i % 2 = 1 then 2 else 1

/-- Spec-side sum "over i = 0..9 of d[i]*m", with each product reduced. -/
def specSum (d : Nat → Nat) : Nat :=
  ((List.range 10).map (fun i => specReduceProduct (d i * specMultiplier i))).foldl (· + ·) 0

/-- Spec-side acceptance: with `topTen = (floor(sum/10)+1)*10` and
`validator = topTen - sum`, "either d[10] equals validator or (d[10] equals 0
and validator equals 10)". -/
def specChecksumAccepts (d : Nat → Nat) : Prop :=
  let sum := specSum d
  let topTen := (sum / 10 + 1) * 10
  let validator := topTen - sum
  d 10 = validator ∨ (d 10 = 0 ∧ validator = 10)

/-- The digit-value function of a string: `d i` is the numeric value of the
character at index `i`. -/
def digitsOf (s : List Char) : Nat → Nat := fun i => charToNum (s.getD i ' ')

/-! Concrete inputs used by the claims and their witnesses. -/

def dui10225088357 : List Char := "10225088357".toList

def dui10225088359 : List Char := "10225088359".toList

def stem1022508835 : List Char := "1022508835".toList

def digitChars : List Char := "0123456789".toList

def rnc130800035 : List Char := "130800035".toList

def phone8093458812 : List Char := "8093458812".toList

def template1 : List Char := "1".toList

def shortInput : List Char := "123".toList


/-!
Theorems. One theorem per claim of the specification, with helper lemmas
shared where useful.
-/

/-- A list of length `n + 1` is a cons whose tail has length `n`. -/
theorem exists_cons_of_length_succ {α : Type} {n : Nat} (s : List α)
    (h : s.length = n + 1) : ∃ a t, s = a :: t ∧ t.length = n := by
  cases s with
  | nil => simp at h
  | cons a t => exact ⟨a, t, rfl, by simpa using h⟩

/-- C2 counterexample: `duiIsValid "10225088357"` evaluates to `false`
(its weighted sum is 31, so the expected check digit is 9, not 7). -/
theorem duiIsValid_10225088357_eq_false : duiIsValid dui10225088357 = false := by
  decide

/-- C2 (amended): `duiIsValid "10225088359"` returns `true`, and among the ten
digits only `'9'` completes the stem `"1022508835"` to a valid identifier, so
replacing the last digit of `"10225088359"` with any of the nine other digits
yields `false`. -/
theorem duiIsValid_10225088359_unique_last_digit :
    duiIsValid dui10225088359 = true ∧
    digitChars.filter (fun d => duiIsValid (stem1022508835 ++ [d])) = ['9'] := by
  decide

/-- C3: `duiIsValid` returns `false` on every string whose length is not 11
and on every length-11 string containing a non-digit character (the embedded
function is total, so it never raises). -/
theorem duiIsValid_rejects_malformed (s : List Char)
    (h : s.length ≠ 11 ∨ ∃ c ∈ s, c.isDigit = false) :
    duiIsValid s = false := by
  rcases h with h | ⟨c, hc, hcd⟩
  · simp [duiIsValid, h]
  · rcases eq_or_ne s.length 11 with h11 | h11
    · have hmem : c ∈ s.filter (fun c => !c.isDigit) :=
        List.mem_filter.mpr ⟨hc, by simp [hcd]⟩
      have hne : s.filter (fun c => !c.isDigit) ≠ [] := List.ne_nil_of_mem hmem
      simp [duiIsValid, h11, hne]
    · simp [duiIsValid, h11]

/-- Witness for C3 at the concrete input `"123"`. -/
theorem duiIsValid_rejects_malformed_witness :
    (shortInput.length ≠ 11 ∨ ∃ c ∈ shortInput, c.isDigit = false) ∧
    duiIsValid shortInput = false :=
  ⟨Or.inl (by decide), duiIsValid_rejects_malformed shortInput (Or.inl (by decide))⟩

/-- C4 fails on the code: for input `""` and template `"1"` the template has
one character matching `[0-9A-Za-z]` while the input has length 0, yet
`format.custom` does not return the sentinel — the length check counts only
`[0-0A-Za-z]` (a slip for `[0-9A-Za-z]`), so it sees 0 = 0 and formats. -/
theorem custom_codebug_missing_sentinel :
    ([] : List Char).length ≠ (template1.filter Char.isAlphanum).length ∧
    format.custom [] template1 = [] ∧
    format.custom [] template1 ≠ sentinel := by
  decide

/-- C5 fails on the code: for input `"a"` and template `"1"` the input length
equals the count of template characters matching `[0-9A-Za-z]`, yet
`format.custom` returns the sentinel (length 16, not the template's length 1)
because its length check counts only `[0-0A-Za-z]`. -/
theorem custom_codebug_spurious_sentinel :
    (['a'] : List Char).length = (template1.filter Char.isAlphanum).length ∧
    format.custom ['a'] template1 = sentinel ∧
    (format.custom ['a'] template1).length ≠ template1.length := by
  decide

/-- C6: the three named formatters produce exactly the documented outputs on
the documented example inputs. -/
theorem named_formatters_documented_examples :
    format.rnc rnc130800035 = "130-80003-5".toList ∧
    format.dui dui10225088357 = "102-2508835-7".toList ∧
    format.phone phone8093458812 = "(809) 345-8812".toList := by
  decide

/-- C7: the currency formatter maps 4623 to `"4,623.00"` with 2 fraction
digits, `"4,623.0"` with 1, and `"4,623"` with the parameter omitted
(default 0). -/
theorem cash_documented_examples :
    format.cash 4623 2 = "4,623.00".toList ∧
    format.cash 4623 1 = "4,623.0".toList ∧
    format.cashDefault 4623 = "4,623".toList := by
  decide

/-- The final comparison of `duiIsValid` as a proposition. -/
theorem accept_bool_iff (a v : Nat) :
    (a == v || (a == 0 && v == 10)) = true ↔ (a = v ∨ (a = 0 ∧ v = 10)) := by
  simp

/-- C1: on every length-11 all-digit string, `duiIsValid` returns `true`
exactly when the spec-side checksum condition holds: with the weighted,
reduced digit sum, `topTen = (floor(sum/10)+1)*10` and
`validator = topTen - sum`, either `d[10] = validator` or
(`d[10] = 0` and `validator = 10`). -/
theorem duiIsValid_iff_spec_checksum (s : List Char)
    (h11 : s.length = 11) (hdig : ∀ c ∈ s, c.isDigit = true) :
    duiIsValid s = true ↔ specChecksumAccepts (digitsOf s) := by
  obtain ⟨c0, s, rfl, k1⟩ := exists_cons_of_length_succ s h11
  obtain ⟨c1, s, rfl, k2⟩ := exists_cons_of_length_succ s k1
  obtain ⟨c2, s, rfl, k3⟩ := exists_cons_of_length_succ s k2
  obtain ⟨c3, s, rfl, k4⟩ := exists_cons_of_length_succ s k3
  obtain ⟨c4, s, rfl, k5⟩ := exists_cons_of_length_succ s k4
  obtain ⟨c5, s, rfl, k6⟩ := exists_cons_of_length_succ s k5
  obtain ⟨c6, s, rfl, k7⟩ := exists_cons_of_length_succ s k6
  obtain ⟨c7, s, rfl, k8⟩ := exists_cons_of_length_succ s k7
  obtain ⟨c8, s, rfl, k9⟩ := exists_cons_of_length_succ s k8
  obtain ⟨c9, s, rfl, k10⟩ := exists_cons_of_length_succ s k9
  obtain ⟨c10, s, rfl, k11⟩ := exists_cons_of_length_succ s k10
  obtain rfl : s = [] := List.length_eq_zero.mp k11
  have hfil : List.filter (fun c => !c.isDigit)
      [c0, c1, c2, c3, c4, c5, c6, c7, c8, c9, c10] = [] :=
    List.filter_eq_nil_iff.mpr (fun c hc => by simp [hdig c hc])
  unfold duiIsValid
  rw [if_neg (by simp), if_neg (by simp [hfil])]
  simp only [accept_bool_iff]
  with_unfolding_all exact Iff.rfl

/-- Witness for C1 at the valid identifier `"10225088359"`. -/
theorem duiIsValid_iff_spec_checksum_witness :
    (dui10225088359.length = 11 ∧ ∀ c ∈ dui10225088359, c.isDigit = true) ∧
    (duiIsValid dui10225088359 = true ↔ specChecksumAccepts (digitsOf dui10225088359)) :=
  ⟨⟨by decide, by decide⟩,
    duiIsValid_iff_spec_checksum dui10225088359 (by decide) (by decide)⟩

/-- C8: each named wrapper propagates the length-mismatch sentinel of
`format.custom`: `format.rnc` on inputs of length ≠ 9, `format.dui` on
length ≠ 11, `format.phone` on length ≠ 10. -/
theorem wrappers_propagate_length_sentinel (s t u : List Char)
    (hs : s.length ≠ 9) (ht : t.length ≠ 11) (hu : u.length ≠ 10) :
    format.rnc s = sentinel ∧ format.dui t = sentinel ∧ format.phone u = sentinel := by
  have h9 : (List.filter inLengthCheckClass ("000-00000-0".toList)).length = 9 := by
    decide
  have h11 : (List.filter inLengthCheckClass ("000-0000000-0".toList)).length = 11 := by
    decide
  have h10 : (List.filter inLengthCheckClass ("(000) 000-0000".toList)).length = 10 := by
    decide
  refine ⟨?_, ?_, ?_⟩
  · unfold format.rnc format.custom
    rw [h9, if_pos hs]
  · unfold format.dui format.custom
    rw [h11, if_pos ht]
  · unfold format.phone format.custom
    rw [h10, if_pos hu]

/-- Witness for C8 at the concrete input `"123"`. -/
theorem wrappers_propagate_length_sentinel_witness :
    (shortInput.length ≠ 9 ∧ shortInput.length ≠ 11 ∧ shortInput.length ≠ 10) ∧
    (format.rnc shortInput = sentinel ∧ format.dui shortInput = sentinel ∧
      format.phone shortInput = sentinel) :=
  ⟨⟨by decide, by decide, by decide⟩,
    wrappers_propagate_length_sentinel shortInput shortInput shortInput
      (by decide) (by decide) (by decide)⟩

/-- Bounds of a digit character's code point. -/
theorem toNat_bounds_of_isDigit {c : Char} (hc : c.isDigit = true) :
    48 ≤ c.toNat ∧ c.toNat ≤ 57 := by
  simp only [Char.isDigit, Bool.and_eq_true, decide_eq_true_eq] at hc
  obtain ⟨h1, h2⟩ := hc
  exact ⟨h1, h2⟩

/-- `charToNum` is injective on digit characters. -/
theorem charToNum_inj_on_digits {c d : Char} (hc : c.isDigit = true)
    (hd : d.isDigit = true) (h : charToNum c = charToNum d) : c = d := by
  obtain ⟨hc1, -⟩ := toNat_bounds_of_isDigit hc
  obtain ⟨hd1, -⟩ := toNat_bounds_of_isDigit hd
  have h0 : '0'.toNat = 48 := rfl
  unfold charToNum at h
  rw [h0] at h
  have hn : c.toNat = d.toNat := by omega
  exact Char.ext (UInt32.ext hn)

/-- The value of a digit character is at most 9. -/
theorem charToNum_le_nine_of_isDigit {c : Char} (hc : c.isDigit = true) :
    charToNum c ≤ 9 := by
  obtain ⟨h1, h2⟩ := toNat_bounds_of_isDigit hc
  have h0 : '0'.toNat = 48 := rfl
  unfold charToNum
  rw [h0]
  omega

/-- The validator computed by the checksum always lies in `1..10`. -/
theorem duiValidator_bounds (working : List Char) :
    1 ≤ duiValidator working ∧ duiValidator working ≤ 10 := by
  have h : duiValidator working
      = (duiSum working / 10 + 1) * 10 - duiSum working := rfl
  rw [h]
  omega

/-- Acceptance of an appended check digit, in terms of the validator of the
ten working digits. -/
theorem duiIsValid_concat (p : List Char) (d : Char)
    (hlen : p.length = 10) (hdig : ∀ c ∈ p, c.isDigit = true) :
    duiIsValid (p ++ [d]) = true ↔
      (d.isDigit = true ∧
        (charToNum d = duiValidator p ∨ (charToNum d = 0 ∧ duiValidator p = 10))) := by
  have hfilp : p.filter (fun c => !c.isDigit) = [] :=
    List.filter_eq_nil_iff.mpr (fun c hc => by simp [hdig c hc])
  unfold duiIsValid
  rw [if_neg (by simp [hlen]), List.filter_append, hfilp]
  by_cases hd : d.isDigit = true
  · rw [if_neg (by simp [hd])]
    rw [List.getLastD_concat, List.dropLast_concat]
    simp [hd, accept_bool_iff]
  · rw [if_pos (by simp [hd])]
    simp [hd]

/-- For every validator value in `1..10` there is exactly one digit character
accepted by the final comparison (10 being represented by `'0'`). -/
theorem exists_unique_accepting_digit (v : Nat) (h1 : 1 ≤ v) (h2 : v ≤ 10) :
    ∃! d : Char, d.isDigit = true ∧
      (charToNum d = v ∨ (charToNum d = 0 ∧ v = 10)) := by
  obtain ⟨k, hk9, hkv⟩ : ∃ k, k ≤ 9 ∧ k = v % 10 := ⟨v % 10, by omega, rfl⟩
  have hwd : (digitChars.getD k ' ').isDigit = true := by
    interval_cases k <;> decide
  have hwv : charToNum (digitChars.getD k ' ') = k := by
    interval_cases k <;> decide
  refine ⟨digitChars.getD k ' ', ⟨hwd, ?_⟩, ?_⟩
  · rcases eq_or_ne v 10 with rfl | hv
    · exact Or.inr ⟨by rw [hwv]; omega, rfl⟩
    · exact Or.inl (by rw [hwv]; omega)
  · rintro d' ⟨hd', h | ⟨h, rfl⟩⟩
    · have hle : charToNum d' ≤ 9 := charToNum_le_nine_of_isDigit hd'
      exact charToNum_inj_on_digits hd' hwd (by rw [h, hwv]; omega)
    · exact charToNum_inj_on_digits hd' hwd (by rw [h, hwv]; omega)

/-- C9: every 10-digit stem admits exactly one character completing it to a
string accepted by `duiIsValid` (the validator lies in `1..10` and the check
digit is determined, 10 being represented by `'0'`). -/
theorem unique_check_digit (p : List Char)
    (hlen : p.length = 10) (hdig : ∀ c ∈ p, c.isDigit = true) :
    ∃! d : Char, duiIsValid (p ++ [d]) = true := by
  obtain ⟨hv1, hv2⟩ := duiValidator_bounds p
  obtain ⟨w, hw, huniq⟩ := exists_unique_accepting_digit (duiValidator p) hv1 hv2
  refine ⟨w, (duiIsValid_concat p w hlen hdig).mpr hw, ?_⟩
  intro d' hd'
  exact huniq d' ((duiIsValid_concat p d' hlen hdig).mp hd')

/-- Witness for C9 at the stem `"1022508835"`. -/
theorem unique_check_digit_witness :
    (stem1022508835.length = 10 ∧ ∀ c ∈ stem1022508835, c.isDigit = true) ∧
    (∃! d : Char, duiIsValid (stem1022508835 ++ [d]) = true) :=
  ⟨⟨by decide, by decide⟩, unique_check_digit stem1022508835 (by decide) (by decide)⟩

/-- C10: the legacy substring-slicing formatters agree with the template-based
formatters on all inputs of the documented lengths (9 for `rnc`, 11 for `dui`,
10 for `phone`). -/
theorem legacy_agrees_with_template (s t u : List Char)
    (hs : s.length = 9) (ht : t.length = 11) (hu : u.length = 10) :
    legacy.rnc s = format.rnc s ∧ legacy.dui t = format.dui t ∧
      legacy.phone u = format.phone u := by
  obtain ⟨a0, s, rfl, j1⟩ := exists_cons_of_length_succ s hs
  obtain ⟨a1, s, rfl, j2⟩ := exists_cons_of_length_succ s j1
  obtain ⟨a2, s, rfl, j3⟩ := exists_cons_of_length_succ s j2
  obtain ⟨a3, s, rfl, j4⟩ := exists_cons_of_length_succ s j3
  obtain ⟨a4, s, rfl, j5⟩ := exists_cons_of_length_succ s j4
  obtain ⟨a5, s, rfl, j6⟩ := exists_cons_of_length_succ s j5
  obtain ⟨a6, s, rfl, j7⟩ := exists_cons_of_length_succ s j6
  obtain ⟨a7, s, rfl, j8⟩ := exists_cons_of_length_succ s j7
  obtain ⟨a8, s, rfl, j9⟩ := exists_cons_of_length_succ s j8
  obtain rfl : s = [] := List.length_eq_zero.mp j9
  obtain ⟨b0, t, rfl, l1⟩ := exists_cons_of_length_succ t ht
  obtain ⟨b1, t, rfl, l2⟩ := exists_cons_of_length_succ t l1
  obtain ⟨b2, t, rfl, l3⟩ := exists_cons_of_length_succ t l2
  obtain ⟨b3, t, rfl, l4⟩ := exists_cons_of_length_succ t l3
  obtain ⟨b4, t, rfl, l5⟩ := exists_cons_of_length_succ t l4
  obtain ⟨b5, t, rfl, l6⟩ := exists_cons_of_length_succ t l5
  obtain ⟨b6, t, rfl, l7⟩ := exists_cons_of_length_succ t l6
  obtain ⟨b7, t, rfl, l8⟩ := exists_cons_of_length_succ t l7
  obtain ⟨b8, t, rfl, l9⟩ := exists_cons_of_length_succ t l8
  obtain ⟨b9, t, rfl, l10⟩ := exists_cons_of_length_succ t l9
  obtain ⟨b10, t, rfl, l11⟩ := exists_cons_of_length_succ t l10
  obtain rfl : t = [] := List.length_eq_zero.mp l11
  obtain ⟨d0, u, rfl, m1⟩ := exists_cons_of_length_succ u hu
  obtain ⟨d1, u, rfl, m2⟩ := exists_cons_of_length_succ u m1
  obtain ⟨d2, u, rfl, m3⟩ := exists_cons_of_length_succ u m2
  obtain ⟨d3, u, rfl, m4⟩ := exists_cons_of_length_succ u m3
  obtain ⟨d4, u, rfl, m5⟩ := exists_cons_of_length_succ u m4
  obtain ⟨d5, u, rfl, m6⟩ := exists_cons_of_length_succ u m5
  obtain ⟨d6, u, rfl, m7⟩ := exists_cons_of_length_succ u m6
  obtain ⟨d7, u, rfl, m8⟩ := exists_cons_of_length_succ u m7
  obtain ⟨d8, u, rfl, m9⟩ := exists_cons_of_length_succ u m8
  obtain ⟨d9, u, rfl, m10⟩ := exists_cons_of_length_succ u m9
  obtain rfl : u = [] := List.length_eq_zero.mp m10
  refine ⟨?_, ?_, ?_⟩
  · with_unfolding_all rfl
  · with_unfolding_all rfl
  · with_unfolding_all rfl

/-- Witness for C10 at the documented example inputs. -/
theorem legacy_agrees_with_template_witness :
    (rnc130800035.length = 9 ∧ dui10225088357.length = 11 ∧
      phone8093458812.length = 10) ∧
    (legacy.rnc rnc130800035 = format.rnc rnc130800035 ∧
      legacy.dui dui10225088357 = format.dui dui10225088357 ∧
      legacy.phone phone8093458812 = format.phone phone8093458812) :=
  ⟨⟨by decide, by decide, by decide⟩,
    legacy_agrees_with_template rnc130800035 dui10225088357 phone8093458812
      (by decide) (by decide) (by decide)⟩
